import Mathlib

/-!
Verification of `src/net123_exec.c` (mpg123's exec-based HTTP streaming module).

We give a shallow embedding of the module: the two argument builders
(`wget_argv`, `curl_argv`) with an explicit allocation oracle (each C
`malloc`/`strdup` consumes one oracle slot and may fail), the availability
prober (`check_program`), the selector/launcher (`net123_open`) as a function
producing an explicit outcome record (result handle, capability-cache values,
probes run, pipe/fork effects, descriptors closed), the reader (`net123_read`)
and teardown (`net123_close`) as effect-trace functions.
-/

namespace Net123

/-- Allocation oracle state: `oracle n` says whether the `n`-th allocation of
the process succeeds; `ctr` counts allocations performed so far. -/
structure AllocSt where
  oracle : Nat → Bool
  ctr : Nat

/-- Perform one allocation: consume one oracle slot. -/
def allocStep (s : AllocSt) : Bool × AllocSt :=
  (s.oracle s.ctr, ⟨s.oracle, s.ctr + 1⟩)

/-- The oracle under which every allocation succeeds. -/
def trueOracle : Nat → Bool := fun _ => true

/-- `compat_strdup`: duplicate a string; one allocation, `none` on failure. -/
def compat_strdup (v : String) (s : AllocSt) : Option String × AllocSt :=
  let (ok, s') := allocStep s
  (if ok then some v else none, s')

/-- `catstr` from the C source: combine two strings into one newly allocated
one; one allocation, `none` on failure. -/
def catstr (par value : String) (s : AllocSt) : Option String × AllocSt :=
  let (ok, s') := allocStep s
  (if ok then some (par ++ value) else none, s')

/-- One slot of a command-line vector as the builders write it: `.dup v` is a
`compat_strdup(v)` (one allocation), `.cat a b` is `catstr(a,b)` (one
allocation), `.lit v` stores an already-owned pointer (no allocation, used by
`curl_argv` for the credential), `.nullEnd` writes the NULL sentinel. -/
inductive EntrySpec
  | dup (v : String)
  | cat (a b : String)
  | lit (v : String)
  | nullEnd
deriving DecidableEq

/-- Write one vector slot, performing its allocation. A failed allocation
stores a null pointer (modelled as `none`) — the C code never checks these. -/
def buildEntry : EntrySpec → AllocSt → Option String × AllocSt
  | .dup v, s => compat_strdup v s
  | .cat a b, s => catstr a b s
  | .lit v, s => (some v, s)
  | .nullEnd, s => (none, s)

/-- Write a sequence of vector slots in order, threading the allocator. -/
def buildEntries : List EntrySpec → AllocSt → List (Option String) × AllocSt
  | [], s => ([], s)
  | e :: es, s =>
    let (x, s') := buildEntry e s
    let (rest, s'') := buildEntries es s'
    (x :: rest, s'')

/-- The value a slot gets when its allocation succeeds. -/
def specValue : EntrySpec → Option String
  | .dup v => some v
  | .cat a b => some (a ++ b)
  | .lit v => some v
  | .nullEnd => none

/-- A built argv: `alloc` pointer slots were allocated, `entries` were written
(in order; the last written entry is the NULL sentinel). -/
structure CArgv where
  alloc : Nat
  entries : List (Option String)
deriving DecidableEq

/-- Number of populated (non-null) slots of a written vector. -/
def populated (l : List (Option String)) : Nat :=
  (l.filter Option.isSome).length

def PACKAGE_NAME : String := "mpg123"
def PACKAGE_VERSION : String := "1.32.0"

/-- `base_args` of `wget_argv`; `--quiet` is present only in non-DEBUG builds. -/
def wget_base_args (debug : Bool) : List String :=
  if debug then ["wget", "--output-document=-", "--save-headers"]
  else ["wget", "--output-document=-", "--quiet", "--save-headers"]

/-- `base_args` of `curl_argv`; the diagnostic flags depend on DEBUG. -/
def curl_base_args (debug : Bool) : List String :=
  if debug then ["curl", "--verbose", "--dump-header", "-"]
  else ["curl", "--silent", "--show-error", "--dump-header", "-"]

/-- `cheads` count: the `while(client_head && client_head[cheads])` loop;
a NULL header array counts as zero headers. -/
def cheadCount : Option (List String) → Nat
  | none => 0
  | some l => l.length

/-- `strchr(s, c)` followed by `*sep = 0`: split a character list at the first
occurrence of `c`, `none` when `c` does not occur. -/
def splitAtChar : List Char → Char → Option (List Char × List Char)
  | [], _ => none
  | x :: xs, c =>
    if x = c then some ([], xs)
    else
      match splitAtChar xs c with
      | none => none
      | some (a, b) => some (x :: a, b)

/-- The header slots of `wget_argv`: one `catstr("--header=", h)` per header. -/
def wgetHeaderSpecs : List String → List EntrySpec
  | [] => []
  | h :: hs => .cat "--header=" h :: wgetHeaderSpecs hs

/-- The header slots of `curl_argv`: two strdup'd slots per header. -/
def curlHeaderSpecs : List String → List EntrySpec
  | [] => []
  | h :: hs => .dup "--header" :: .dup h :: curlHeaderSpecs hs

/-- The user-agent string `"--user-agent=" PACKAGE_NAME "/" PACKAGE_VERSION`. -/
def wgetAgentString : String :=
  "--user-agent=" ++ PACKAGE_NAME ++ "/" ++ PACKAGE_VERSION

/-- The user-agent value `PACKAGE_NAME "/" PACKAGE_VERSION` passed to curl. -/
def curlAgentString : String :=
  PACKAGE_NAME ++ "/" ++ PACKAGE_VERSION

/-- The full slot sequence `wget_argv` writes, given the already-split
credential (`some (user, password)` iff `param.httpauth` was non-NULL, its
strdup succeeded and it contained a `':'`). -/
def wget_specs (debug : Bool) (url : String) (heads : List String)
    (auth : Option (String × String)) : List EntrySpec :=
  (wget_base_args debug).map .dup
    ++ [.dup wgetAgentString]
    ++ wgetHeaderSpecs heads
    ++ (match auth with
        | none => []
        | some (u, p) => [.cat "--user=" u, .cat "--password=" p])
    ++ [.dup url, .nullEnd]

/-- The full slot sequence `curl_argv` writes, given the duplicated credential
(`some ha` iff `param.httpauth` was non-NULL and its strdup succeeded). -/
def curl_specs (debug : Bool) (url : String) (heads : List String)
    (auth : Option String) : List EntrySpec :=
  (curl_base_args debug).map .dup
    ++ [.dup "--user-agent", .dup curlAgentString]
    ++ curlHeaderSpecs heads
    ++ (match auth with
        | none => []
        | some ha => [.dup "--user", .lit ha])
    ++ [.dup url, .nullEnd]

/-- The credential preprocessing of `wget_argv`: strdup `param.httpauth` (one
allocation) and split it at the first `':'`; no `':'` (or strdup failure, or
no credential) yields no auth pair. -/
def wgetAuth (httpauth : Option String) (s : AllocSt) :
    Option (String × String) × AllocSt :=
  match httpauth with
  | none => (none, s)
  | some ha =>
    let (d, s') := compat_strdup ha s
    match d with
    | none => (none, s')
    | some ha' =>
      match splitAtChar ha'.toList ':' with
      | none => (none, s')
      | some (u, p) => (some (String.mk u, String.mk p), s')

/-- The credential preprocessing of `curl_argv`: strdup `param.httpauth`. -/
def curlAuth (httpauth : Option String) (s : AllocSt) :
    Option String × AllocSt :=
  match httpauth with
  | none => (none, s)
  | some ha => compat_strdup ha s

/-- `wget_argv(url, client_head)` under `param.httpauth = httpauth` and the
given DEBUG setting. Mirrors the C code: count `argc` (fixed args + agent +
client headers [+ auth] + URL + NULL), allocate `argc+1` pointer slots
(`malloc(sizeof(char*)*(argc+1))`, `none` on failure), then write the slots
in order. -/
def wget_argv (httpauth : Option String) (debug : Bool) (url : String)
    (client_head : Option (List String)) (s : AllocSt) :
    Option CArgv × AllocSt :=
  let cheads := cheadCount client_head
  let argc0 := (wget_base_args debug).length + 1 + cheads + 1 + 1
  let (auth, s1) := wgetAuth httpauth s
  let argc := argc0 + (match auth with | none => 0 | some _ => 2)
  let (argvOk, s2) := allocStep s1
  if argvOk then
    let (es, s3) :=
      buildEntries (wget_specs debug url (client_head.getD []) auth) s2
    (some ⟨argc + 1, es⟩, s3)
  else (none, s2)

/-- `curl_argv(url, client_head)` under `param.httpauth = httpauth` and the
given DEBUG setting. Mirrors the C code: count `argc` (fixed args + agent(2) +
2×client headers [+ auth(2)] + URL + NULL), allocate `argc+1` pointer slots,
then write the slots in order. -/
def curl_argv (httpauth : Option String) (debug : Bool) (url : String)
    (client_head : Option (List String)) (s : AllocSt) :
    Option CArgv × AllocSt :=
  let cheads := cheadCount client_head
  let argc0 := (curl_base_args debug).length + 2 + 2 * cheads + 1 + 1
  let (auth, s1) := curlAuth httpauth s
  let argc := argc0 + (match auth with | none => 0 | some _ => 2)
  let (argvOk, s2) := allocStep s1
  if argvOk then
    let (es, s3) :=
      buildEntries (curl_specs debug url (client_head.getD []) auth) s2
    (some ⟨argc + 1, es⟩, s3)
  else (none, s2)

/-! ## Prober: `check_program` -/

/-- What the probe child does after a successful fork: either the `execvp`
succeeds and the program terminates with a wait status, or `execvp` fails and
the child runs `exit(1)`. -/
inductive ChildRun
  | execOk (exitedNormally : Bool) (code : Nat)
  | execFail
deriving DecidableEq

/-- The wait status the parent observes for the probe child:
`(WIFEXITED, WEXITSTATUS)`. An `execvp` failure becomes a normal exit with
code 1 (`exit(1)` in the child). A signal-terminated child is
`(false, code)`. -/
def child_status : ChildRun → Bool × Nat
  | .execOk e c => (e, c)
  | .execFail => (true, 1)

/-- `check_program(argv)`: fork; the child redirects its standard streams to
the null device and execs; the parent waits synchronously and returns 1 iff
`waitpid` succeeded, the child exited normally and its exit code is 0.
A failed fork falls through to `return 0`. -/
def check_program (forkOk waitOk : Bool) (child : ChildRun) : Int :=
  if forkOk then
    if waitOk ∧ (child_status child).1 = true ∧ (child_status child).2 = 0
    then 1 else 0
  else 0

/-! ## Launcher: `net123_open` -/

/-- `net123_handle`: the pipe's read end and the worker pid. -/
structure Handle where
  fd : Int
  worker : Int
deriving DecidableEq

/-- Environment for one `net123_open` call: whether the handle `malloc`,
`pipe()` and `fork()` succeed, the descriptor numbers `pipe()` would hand
out, and the child pid `fork()` would return. -/
structure OpenEnv where
  nhAllocOk : Bool
  pipeOk : Bool
  forkOk : Bool
  readFd : Int
  writeFd : Int
  childPid : Int
deriving DecidableEq

/-- Observable outcome of one `net123_open` call in the launching process:
the returned handle (or none), the capability-cache values `got_wget`,
`got_curl` after the call, which probes ran (in order), which backend the
selector chose, whether a pipe was created, whether a fork was attempted,
which pipe descriptors the parent closed before returning, and the error
messages reported. -/
structure OpenOutcome where
  result : Option Handle
  gotWget : Int
  gotCurl : Int
  probes : List String
  backend : Option String
  pipeCreated : Bool
  forkAttempted : Bool
  closedFds : List Int
  errors : List String
deriving DecidableEq

/-- The part of `net123_open` after backend selection: `malloc` the handle,
`pipe(fd)`, `fork()`; on success the parent closes the write end and returns
the handle holding the read end and the worker pid. -/
def openLaunch (gw gc : Int) (probes : List String) (useCurl : Bool)
    (env : OpenEnv) : OpenOutcome :=
  let backend := some (if useCurl then "curl" else "wget")
  if env.nhAllocOk = false then
    ⟨none, gw, gc, probes, backend, false, false, [], []⟩
  else if env.pipeOk = false then
    ⟨none, gw, gc, probes, backend, false, false, [], ["failed creating a pipe"]⟩
  else if env.forkOk = false then
    ⟨none, gw, gc, probes, backend, true, true, [], ["fork failed"]⟩
  else
    ⟨some ⟨env.readFd, env.childPid⟩, gw, gc, probes, backend, true, true,
      [env.writeFd], []⟩

/-- `net123_open(url, client_head)` as observed in the launching process,
under `param.network_backend = policy`, capability caches `gw = got_wget`,
`gc = got_curl` (`< 0`: unknown, `0`: absent, `1`: present), and probe
results `probeW`, `probeC` for the two `check_program` calls. Under "auto"
the code probes curl first, then wget, each only when its cache is unknown,
and picks curl exactly when `got_wget < 1 && got_curl == 1`; explicit
"curl"/"wget" skip probing; any other policy is reported and fails before
the pipe or fork. -/
def net123_open (policy : String) (gw gc : Int) (probeW probeC : Bool)
    (env : OpenEnv) : OpenOutcome :=
  if policy = "auto" then
    let pc : Int × List String :=
      if gc < 0 then ((if probeC then 1 else 0), ["curl"]) else (gc, [])
    let pw : Int × List String :=
      if gw < 0 then ((if probeW then 1 else 0), ["wget"]) else (gw, [])
    let useCurl := decide (pw.1 < 1) && decide (pc.1 = 1)
    openLaunch pw.1 pc.1 (pc.2 ++ pw.2) useCurl env
  else if policy = "curl" then
    openLaunch gw gc [] true env
  else if policy = "wget" then
    openLaunch gw gc [] false env
  else
    ⟨none, gw, gc, [], none, false, false, [],
      ["invalid network backend specified"]⟩

/-! ## Reader: `net123_read` -/

/-- One attempt of the underlying `read(2)`: interrupted by a signal, or
completed with the primitive's return value. -/
inductive ReadStep
  | interrupted
  | done (n : Int)
deriving DecidableEq

/-- Modelled from the spec: `unintr_read` lives in the compat layer (not in
`src/`); it performs one blocking read, transparently retried when
interrupted by a signal, returning the first non-interrupted result of the
underlying read primitive. -/
def unintr_read : List ReadStep → Int
  | [] => 0
  | .interrupted :: rest => unintr_read rest
  | .done n :: _ => n

/-- Outcome of a `net123_read` call: the return value and the descriptors a
(retried) blocking read was performed on. -/
structure ReadOutcome where
  ret : Int
  fdsRead : List Int
deriving DecidableEq

/-- `net123_read(nh, buf, bufsize)`: a NULL handle, or `bufsize` nonzero with
a NULL buffer, returns 0 without touching the pipe; otherwise one
interruption-retried blocking read on `nh->fd`. -/
def net123_read (nh : Option Handle) (bufNull : Bool) (bufsize : Nat)
    (steps : List ReadStep) : ReadOutcome :=
  match nh with
  | none => ⟨0, []⟩
  | some h =>
    if bufsize ≠ 0 ∧ bufNull = true then ⟨0, []⟩
    else ⟨unintr_read steps, [h.fd]⟩

/-! ## Teardown: `net123_close` -/

/-- Effects of `net123_close`, in order. -/
inductive CloseEff
  | kill (pid : Int) (sig : String)
  | reap (pid : Int) (ok : Bool)
  | warn (msg : String)
  | closeFd (fd : Int)
  | freeHandle
deriving DecidableEq

/-- `net123_close(nh)`: no-op on NULL; else if a worker is recorded, SIGKILL
it and block in `waitpid`, a reap failure only producing a warning; then
close the read descriptor if still open; free the handle last. -/
def net123_close (nh : Option Handle) (reapOk : Bool) : List CloseEff :=
  match nh with
  | none => []
  | some h =>
    (if h.worker ≠ 0 then
      [.kill h.worker "SIGKILL", .reap h.worker reapOk]
        ++ (if reapOk then [] else [.warn "failed to wait for worker process"])
    else [])
    ++ (if h.fd > -1 then [.closeFd h.fd] else [])
    ++ [.freeHandle]

/-! ## Helper lemmas -/

lemma buildEntry_oracle (e : EntrySpec) (s : AllocSt) :
    ((buildEntry e s).2).oracle = s.oracle := by
  cases e <;> simp [buildEntry, compat_strdup, catstr, allocStep]

lemma buildEntry_fst_true (e : EntrySpec) (s : AllocSt)
    (h : s.oracle = trueOracle) : (buildEntry e s).1 = specValue e := by
  cases e <;> simp [buildEntry, compat_strdup, catstr, allocStep, h,
    trueOracle, specValue]

lemma buildEntries_fst_true (es : List EntrySpec) (s : AllocSt)
    (h : s.oracle = trueOracle) : (buildEntries es s).1 = es.map specValue := by
  induction es generalizing s with
  | nil => simp [buildEntries]
  | cons e es ih =>
    simp only [buildEntries, List.map_cons]
    rw [buildEntry_fst_true e s h, ih _ (by rw [buildEntry_oracle]; exact h)]

lemma buildEntries_length (es : List EntrySpec) (s : AllocSt) :
    ((buildEntries es s).1).length = es.length := by
  induction es generalizing s with
  | nil => simp [buildEntries]
  | cons e es ih => simp [buildEntries, ih]

lemma buildEntries_append (l1 l2 : List EntrySpec) (s : AllocSt) :
    (buildEntries (l1 ++ l2) s).1 =
      (buildEntries l1 s).1 ++ (buildEntries l2 (buildEntries l1 s).2).1 := by
  induction l1 generalizing s with
  | nil => simp [buildEntries]
  | cons e es ih => simp [buildEntries, ih]

lemma wgetAuth_oracle (ha : Option String) (s : AllocSt) :
    ((wgetAuth ha s).2).oracle = s.oracle := by
  cases ha with
  | none => simp [wgetAuth]
  | some a =>
    simp only [wgetAuth, compat_strdup, allocStep]
    split
    · rfl
    split <;> rfl

lemma curlAuth_oracle (ha : Option String) (s : AllocSt) :
    ((curlAuth ha s).2).oracle = s.oracle := by
  cases ha <;> simp [curlAuth, compat_strdup, allocStep]

lemma wgetHeaderSpecs_length (hs : List String) :
    (wgetHeaderSpecs hs).length = hs.length := by
  induction hs with
  | nil => simp [wgetHeaderSpecs]
  | cons h hs ih => simp [wgetHeaderSpecs, ih]

lemma curlHeaderSpecs_length (hs : List String) :
    (curlHeaderSpecs hs).length = 2 * hs.length := by
  induction hs with
  | nil => simp [curlHeaderSpecs]
  | cons h hs ih => simp [curlHeaderSpecs, ih]; omega

lemma cheadCount_eq (ch : Option (List String)) :
    cheadCount ch = (ch.getD []).length := by
  cases ch <;> simp [cheadCount]

lemma wget_specs_length (debug : Bool) (url : String) (heads : List String)
    (auth : Option (String × String)) :
    (wget_specs debug url heads auth).length =
      (wget_base_args debug).length + 1 + heads.length +
        (match auth with | none => 0 | some _ => 2) + 2 := by
  obtain _ | ⟨u, p⟩ := auth <;>
    simp [wget_specs, wgetHeaderSpecs_length] <;> omega

lemma curl_specs_length (debug : Bool) (url : String) (heads : List String)
    (auth : Option String) :
    (curl_specs debug url heads auth).length =
      (curl_base_args debug).length + 2 + 2 * heads.length +
        (match auth with | none => 0 | some _ => 2) + 2 := by
  obtain _ | a := auth <;>
    simp [curl_specs, curlHeaderSpecs_length] <;> omega

/-- With every allocation succeeding, `wget_argv` returns the full written
vector (the spec values of its slot sequence) in `argc + 1` allocated slots,
where `argc` equals the number of written slots. -/
lemma wget_argv_trueOracle (ha : Option String) (debug : Bool) (url : String)
    (heads : Option (List String)) (n : Nat) :
    (wget_argv ha debug url heads ⟨trueOracle, n⟩).1 =
      some ⟨(wget_specs debug url (heads.getD [])
               (wgetAuth ha ⟨trueOracle, n⟩).1).length + 1,
            (wget_specs debug url (heads.getD [])
               (wgetAuth ha ⟨trueOracle, n⟩).1).map specValue⟩ := by
  obtain ⟨au, s1, h1⟩ : ∃ au s1, wgetAuth ha ⟨trueOracle, n⟩ = (au, s1) :=
    ⟨_, _, rfl⟩
  have ho : s1.oracle = trueOracle := by
    have := wgetAuth_oracle ha ⟨trueOracle, n⟩
    rw [h1] at this; exact this
  simp only [wget_argv, h1, allocStep, ho, trueOracle]
  rw [if_pos trivial]
  dsimp only
  rw [buildEntries_fst_true _ _ rfl]
  have hlen := wget_specs_length debug url (heads.getD []) au
  have hch := cheadCount_eq heads
  simp only [Option.some.injEq, CArgv.mk.injEq]
  refine ⟨?_, trivial⟩
  obtain _ | ⟨u, p⟩ := au <;> simp only [] at hlen ⊢ <;> omega

/-- With every allocation succeeding, `curl_argv` returns the full written
vector in `argc + 1` allocated slots, where `argc` equals the number of
written slots. -/
lemma curl_argv_trueOracle (ha : Option String) (debug : Bool) (url : String)
    (heads : Option (List String)) (n : Nat) :
    (curl_argv ha debug url heads ⟨trueOracle, n⟩).1 =
      some ⟨(curl_specs debug url (heads.getD [])
               (curlAuth ha ⟨trueOracle, n⟩).1).length + 1,
            (curl_specs debug url (heads.getD [])
               (curlAuth ha ⟨trueOracle, n⟩).1).map specValue⟩ := by
  obtain ⟨au, s1, h1⟩ : ∃ au s1, curlAuth ha ⟨trueOracle, n⟩ = (au, s1) :=
    ⟨_, _, rfl⟩
  have ho : s1.oracle = trueOracle := by
    have := curlAuth_oracle ha ⟨trueOracle, n⟩
    rw [h1] at this; exact this
  simp only [curl_argv, h1, allocStep, ho, trueOracle]
  rw [if_pos trivial]
  dsimp only
  rw [buildEntries_fst_true _ _ rfl]
  have hlen := curl_specs_length debug url (heads.getD []) au
  have hch := cheadCount_eq heads
  simp only [Option.some.injEq, CArgv.mk.injEq]
  refine ⟨?_, trivial⟩
  obtain _ | a := au <;> simp only [] at hlen ⊢ <;> omega

lemma getLast?_append_singleton {α : Type} (l : List α) (a : α) :
    (l ++ [a]).getLast? = some a := by
  rw [List.getLast?_append_cons]
  rfl

lemma populated_append (l1 l2 : List (Option String)) :
    populated (l1 ++ l2) = populated l1 + populated l2 := by
  simp [populated, List.filter_append]

lemma populated_specValue_no_nullEnd (es : List EntrySpec)
    (h : EntrySpec.nullEnd ∉ es) :
    populated (es.map specValue) = es.length := by
  induction es with
  | nil => rfl
  | cons e es ih =>
    have he : e ≠ .nullEnd := fun hc => h (hc ▸ List.mem_cons_self e es)
    have hes : EntrySpec.nullEnd ∉ es := fun hc => h (List.mem_cons_of_mem e hc)
    have hv : (specValue e).isSome = true := by
      cases e
      case nullEnd => exact (he rfl).elim
      all_goals simp [specValue]
    simp [populated, List.filter_cons, hv] at ih ⊢
    simpa [populated] using ih hes

lemma nullEnd_not_mem_map_dup (xs : List String) :
    EntrySpec.nullEnd ∉ xs.map EntrySpec.dup := by
  simp

lemma nullEnd_not_mem_wgetHeaderSpecs (hs : List String) :
    EntrySpec.nullEnd ∉ wgetHeaderSpecs hs := by
  induction hs with
  | nil => simp [wgetHeaderSpecs]
  | cons h hs ih => simp [wgetHeaderSpecs, ih]

lemma nullEnd_not_mem_curlHeaderSpecs (hs : List String) :
    EntrySpec.nullEnd ∉ curlHeaderSpecs hs := by
  induction hs with
  | nil => simp [curlHeaderSpecs]
  | cons h hs ih => simp [curlHeaderSpecs, ih]

lemma wget_pre_no_nullEnd (d : Bool) (hs : List String)
    (a : Option (String × String)) :
    EntrySpec.nullEnd ∉
      ((wget_base_args d).map EntrySpec.dup ++ [EntrySpec.dup wgetAgentString]
        ++ wgetHeaderSpecs hs
        ++ (match a with
            | none => []
            | some (u, p) =>
              [EntrySpec.cat "--user=" u, EntrySpec.cat "--password=" p])) := by
  rcases a with _ | ⟨u2, p2⟩ <;>
    simp [List.mem_append, nullEnd_not_mem_wgetHeaderSpecs hs]

lemma curl_pre_no_nullEnd (d : Bool) (hs : List String) (a : Option String) :
    EntrySpec.nullEnd ∉
      ((curl_base_args d).map EntrySpec.dup
        ++ [EntrySpec.dup "--user-agent", EntrySpec.dup curlAgentString]
        ++ curlHeaderSpecs hs
        ++ (match a with
            | none => []
            | some ha => [EntrySpec.dup "--user", EntrySpec.lit ha])) := by
  rcases a with _ | ha <;>
    simp [List.mem_append, nullEnd_not_mem_curlHeaderSpecs hs]

lemma populated_prefix_sentinel (P : List EntrySpec) (u : String)
    (h : EntrySpec.nullEnd ∉ P) :
    populated ((P ++ [EntrySpec.dup u, EntrySpec.nullEnd]).map specValue) + 1
      = ((P ++ [EntrySpec.dup u, EntrySpec.nullEnd]).map specValue).length ∧
    ((P ++ [EntrySpec.dup u, EntrySpec.nullEnd]).map specValue).getLast?
      = some none := by
  constructor
  · rw [List.map_append, populated_append, populated_specValue_no_nullEnd P h]
    simp [populated, specValue]
  · rw [List.map_append]
    rw [show ([EntrySpec.dup u, EntrySpec.nullEnd]).map specValue
          = [some u] ++ [none] from rfl]
    rw [← List.append_assoc]
    exact getLast?_append_singleton _ _

/-! ## Claim theorems -/

/-- C3 counterexample: the claim says the vector's length exactly matches
populated entries plus the terminating NULL sentinel.  For url "http://x",
no headers and no credential, `wget_argv` writes 6 populated entries plus
the sentinel (7 slots used) but allocates 8 pointer slots — one extra slot,
so the allocated length does not exactly match. -/
theorem wget_argv_extra_slot_cex :
    (wget_argv none false "http://x" none ⟨trueOracle, 0⟩).1 =
      some ⟨8, [some "wget", some "--output-document=-", some "--quiet",
                some "--save-headers", some wgetAgentString,
                some "http://x", none]⟩ ∧
    populated [some "wget", some "--output-document=-", some "--quiet",
               some "--save-headers", some wgetAgentString,
               some "http://x", none] + 1 = 7 ∧
    (8 : Nat) ≠ 7 := by
  refine ⟨rfl, rfl, by decide⟩

/-- C3 (amended): for every url, header list (0, 1 or many headers) and
optional credential, with every allocation succeeding, each builder writes a
vector whose written slots are exactly the populated entries plus one
terminating NULL sentinel in the last position (no missing slots, no interior
nulls), but the allocation holds exactly one extra pointer slot beyond the
written ones: `alloc = written + 1`. -/
theorem argv_vector_length_exact (ha : Option String) (debug : Bool)
    (url : String) (heads : Option (List String)) (n m : Nat) :
    (∃ v, (wget_argv ha debug url heads ⟨trueOracle, n⟩).1 = some v ∧
       populated v.entries + 1 = v.entries.length ∧
       v.entries.getLast? = some none ∧
       v.alloc = v.entries.length + 1) ∧
    (∃ v, (curl_argv ha debug url heads ⟨trueOracle, m⟩).1 = some v ∧
       populated v.entries + 1 = v.entries.length ∧
       v.entries.getLast? = some none ∧
       v.alloc = v.entries.length + 1) := by
  constructor
  · refine ⟨_, wget_argv_trueOracle ha debug url heads n, ?_, ?_, ?_⟩
    · exact (populated_prefix_sentinel _ url
        (wget_pre_no_nullEnd debug (heads.getD [])
          (wgetAuth ha ⟨trueOracle, n⟩).1)).1
    · exact (populated_prefix_sentinel _ url
        (wget_pre_no_nullEnd debug (heads.getD [])
          (wgetAuth ha ⟨trueOracle, n⟩).1)).2
    · simp
  · refine ⟨_, curl_argv_trueOracle ha debug url heads m, ?_, ?_, ?_⟩
    · exact (populated_prefix_sentinel _ url
        (curl_pre_no_nullEnd debug (heads.getD [])
          (curlAuth ha ⟨trueOracle, m⟩).1)).1
    · exact (populated_prefix_sentinel _ url
        (curl_pre_no_nullEnd debug (heads.getD [])
          (curlAuth ha ⟨trueOracle, m⟩).1)).2
    · simp

lemma buildEntries_sentinel_last (P : List EntrySpec) (u : String)
    (s : AllocSt) :
    ((buildEntries (P ++ [EntrySpec.dup u, EntrySpec.nullEnd]) s).1).getLast?
      = some none := by
  rw [buildEntries_append]
  rw [show (buildEntries [EntrySpec.dup u, EntrySpec.nullEnd]
        (buildEntries P s).2).1
      = [(compat_strdup u (buildEntries P s).2).1] ++ [none] by
    simp [buildEntries, buildEntry]]
  rw [← List.append_assoc]
  exact getLast?_append_singleton _ _

/-- General-oracle evaluation of `wget_argv`: the result is `none` exactly
when the argv-array `malloc` (the allocation right after the credential
strdup) fails; otherwise it is the `argc+1`-slot vector of the written
entries, with `argc` the length of the slot sequence. -/
lemma wget_argv_eval (ha : Option String) (debug : Bool) (url : String)
    (heads : Option (List String)) (s : AllocSt) :
    (wget_argv ha debug url heads s).1 =
      if (wgetAuth ha s).2.oracle (wgetAuth ha s).2.ctr then
        some ⟨(wget_specs debug url (heads.getD [])
                 (wgetAuth ha s).1).length + 1,
              (buildEntries
                 (wget_specs debug url (heads.getD []) (wgetAuth ha s).1)
                 ⟨(wgetAuth ha s).2.oracle, (wgetAuth ha s).2.ctr + 1⟩).1⟩
      else none := by
  obtain ⟨au, s1, h1⟩ : ∃ au s1, wgetAuth ha s = (au, s1) := ⟨_, _, rfl⟩
  simp only [wget_argv, h1, allocStep]
  cases hb : s1.oracle s1.ctr
  · simp [hb]
  · simp only [hb, if_true]
    simp only [Option.some.injEq, CArgv.mk.injEq]
    refine ⟨?_, trivial⟩
    have hlen := wget_specs_length debug url (heads.getD []) au
    have hch := cheadCount_eq heads
    obtain _ | ⟨u2, p2⟩ := au <;> simp only [] at hlen ⊢ <;> omega

/-- General-oracle evaluation of `curl_argv`. -/
lemma curl_argv_eval (ha : Option String) (debug : Bool) (url : String)
    (heads : Option (List String)) (s : AllocSt) :
    (curl_argv ha debug url heads s).1 =
      if (curlAuth ha s).2.oracle (curlAuth ha s).2.ctr then
        some ⟨(curl_specs debug url (heads.getD [])
                 (curlAuth ha s).1).length + 1,
              (buildEntries
                 (curl_specs debug url (heads.getD []) (curlAuth ha s).1)
                 ⟨(curlAuth ha s).2.oracle, (curlAuth ha s).2.ctr + 1⟩).1⟩
      else none := by
  obtain ⟨au, s1, h1⟩ : ∃ au s1, curlAuth ha s = (au, s1) := ⟨_, _, rfl⟩
  simp only [curl_argv, h1, allocStep]
  cases hb : s1.oracle s1.ctr
  · simp [hb]
  · simp only [hb, if_true]
    simp only [Option.some.injEq, CArgv.mk.injEq]
    refine ⟨?_, trivial⟩
    have hlen := curl_specs_length debug url (heads.getD []) au
    have hch := cheadCount_eq heads
    obtain _ | a := au <;> simp only [] at hlen ⊢ <;> omega

/-- C4 counterexample: the claim says that on any allocation failure the
builder returns no vector at all, never a vector with null interior entries.
Under the oracle failing exactly allocation #1 — the strdup of the very first
entry, after the argv array `malloc` (allocation #0) succeeded — `wget_argv`
still returns a vector, whose first (interior) entry is null. -/
theorem wget_argv_interior_null_cex :
    (wget_argv none false "http://x" none ⟨fun n => !(n == 1), 0⟩).1 =
      some ⟨8, [none, some "--output-document=-", some "--quiet",
                some "--save-headers", some wgetAgentString,
                some "http://x", none]⟩ ∧
    (fun n => !(n == 1)) 1 = false := by
  exact ⟨rfl, rfl⟩

/-- C4 (amended): each builder computes the exact argument count before
allocating — whenever a vector is returned it has exactly `argc` written
entries inside `argc+1` allocated slots with the NULL sentinel written last —
and a failure of the argv-array allocation returns no vector; but a failed
allocation of an individual entry string does not make the builder fail:
the vector is returned with that entry as a null interior slot. -/
theorem argv_alloc_failure (ha : Option String) (debug : Bool) (url : String)
    (heads : Option (List String)) (s : AllocSt) :
    ((wget_argv ha debug url heads s).1 = none ↔
      (wgetAuth ha s).2.oracle ((wgetAuth ha s).2.ctr) = false) ∧
    (∀ v, (wget_argv ha debug url heads s).1 = some v →
      v.alloc = v.entries.length + 1 ∧ v.entries.getLast? = some none) ∧
    ((curl_argv ha debug url heads s).1 = none ↔
      (curlAuth ha s).2.oracle ((curlAuth ha s).2.ctr) = false) ∧
    (∀ v, (curl_argv ha debug url heads s).1 = some v →
      v.alloc = v.entries.length + 1 ∧ v.entries.getLast? = some none) := by
  have hw := wget_argv_eval ha debug url heads s
  have hc := curl_argv_eval ha debug url heads s
  refine ⟨?_, ?_, ?_, ?_⟩
  · rw [hw]
    cases hb : (wgetAuth ha s).2.oracle (wgetAuth ha s).2.ctr <;> simp [hb]
  · intro v hv
    rw [hw] at hv
    cases hb : (wgetAuth ha s).2.oracle (wgetAuth ha s).2.ctr <;>
      rw [hb] at hv
    · simp at hv
    · rw [if_pos rfl] at hv
      obtain rfl := Option.some.inj hv
      constructor
      · simp [buildEntries_length]
      · exact buildEntries_sentinel_last _ url _
  · rw [hc]
    cases hb : (curlAuth ha s).2.oracle (curlAuth ha s).2.ctr <;> simp [hb]
  · intro v hv
    rw [hc] at hv
    cases hb : (curlAuth ha s).2.oracle (curlAuth ha s).2.ctr <;>
      rw [hb] at hv
    · simp at hv
    · rw [if_pos rfl] at hv
      obtain rfl := Option.some.inj hv
      constructor
      · simp [buildEntries_length]
      · exact buildEntries_sentinel_last _ url _

/-- C4 witness: a concrete instance of `argv_alloc_failure` — with every
allocation failing, the argv-array allocation fails and `wget_argv`
returns no vector. -/
theorem argv_alloc_failure_witness :
    (wget_argv none false "http://x" none ⟨fun _ => false, 0⟩).1 = none :=
  (argv_alloc_failure none false "http://x" none ⟨fun _ => false, 0⟩).1.mpr rfl

lemma splitAtChar_eq_none (l : List Char) (c : Char) (h : c ∉ l) :
    splitAtChar l c = none := by
  induction l with
  | nil => rfl
  | cons x xs ih =>
    have hx : ¬ x = c := fun he => h (he ▸ List.mem_cons_self x xs)
    have hxs : c ∉ xs := fun hm => h (List.mem_cons_of_mem x hm)
    simp [splitAtChar, hx, ih hxs]

/-- C10: a credential containing no `':'` makes `wget_argv` emit no
authentication flags at all — its vector is identical to the no-credential
vector — while `curl_argv` passes any non-null credential whole as the value
of its `--user` flag. -/
theorem credential_no_colon (cred cred2 url : String) (debug : Bool)
    (heads : Option (List String)) (n m : Nat)
    (hc : ':' ∉ cred.toList) :
    (wget_argv (some cred) debug url heads ⟨trueOracle, n⟩).1 =
      (wget_argv none debug url heads ⟨trueOracle, n⟩).1 ∧
    (∃ v, (curl_argv (some cred2) debug url heads ⟨trueOracle, m⟩).1 = some v ∧
       v.entries =
         (((curl_base_args debug).map EntrySpec.dup
            ++ [EntrySpec.dup "--user-agent", EntrySpec.dup curlAgentString]
            ++ curlHeaderSpecs (heads.getD [])).map specValue)
           ++ [some "--user", some cred2, some url, none]) := by
  constructor
  · rw [wget_argv_trueOracle, wget_argv_trueOracle]
    have hsp : splitAtChar cred.data ':' = none :=
      splitAtChar_eq_none cred.data ':' hc
    have h1 : (wgetAuth (some cred) (⟨trueOracle, n⟩ : AllocSt)).1 = none := by
      simp [wgetAuth, compat_strdup, allocStep, trueOracle, hsp]
    have h2 : (wgetAuth none (⟨trueOracle, n⟩ : AllocSt)).1 = none := rfl
    rw [h1, h2]
  · have hau : (curlAuth (some cred2) (⟨trueOracle, m⟩ : AllocSt)).1
        = some cred2 := by
      simp [curlAuth, compat_strdup, allocStep, trueOracle]
    have h2 := curl_argv_trueOracle (some cred2) debug url heads m
    rw [hau] at h2
    refine ⟨_, h2, ?_⟩
    simp [curl_specs, List.map_append, List.append_assoc, specValue]

lemma openLaunch_gotWget (gw gc : Int) (probes : List String) (uc : Bool)
    (env : OpenEnv) : (openLaunch gw gc probes uc env).gotWget = gw := by
  unfold openLaunch; split_ifs <;> rfl

lemma openLaunch_gotCurl (gw gc : Int) (probes : List String) (uc : Bool)
    (env : OpenEnv) : (openLaunch gw gc probes uc env).gotCurl = gc := by
  unfold openLaunch; split_ifs <;> rfl

lemma openLaunch_probes (gw gc : Int) (probes : List String) (uc : Bool)
    (env : OpenEnv) : (openLaunch gw gc probes uc env).probes = probes := by
  unfold openLaunch; split_ifs <;> rfl

lemma openLaunch_backend (gw gc : Int) (probes : List String) (uc : Bool)
    (env : OpenEnv) :
    (openLaunch gw gc probes uc env).backend
      = some (if uc then "curl" else "wget") := by
  unfold openLaunch; split_ifs <;> rfl

/-- C2: under the "auto" policy, for every combination of probe outcomes
(both caches unknown, so both probes run), the selector chooses by the table:
wget present → wget, regardless of curl; wget absent and curl present → curl;
both absent → wget. -/
theorem auto_selection_table (pw pc : Bool) (env : OpenEnv) :
    (net123_open "auto" (-1) (-1) pw pc env).backend =
      some (if pw then "wget" else if pc then "curl" else "wget") := by
  cases pw <;> cases pc <;>
    simp [net123_open, openLaunch_backend]

/-- C5: any policy other than "auto", "wget" and "curl" is reported as a
configuration error: no handle, no pipe created, no fork attempted, no probes
run, caches untouched. -/
theorem invalid_policy_fails_early (policy : String) (gw gc : Int)
    (pw pc : Bool) (env : OpenEnv)
    (h1 : policy ≠ "auto") (h2 : policy ≠ "curl") (h3 : policy ≠ "wget") :
    (net123_open policy gw gc pw pc env).result = none ∧
    (net123_open policy gw gc pw pc env).pipeCreated = false ∧
    (net123_open policy gw gc pw pc env).forkAttempted = false ∧
    (net123_open policy gw gc pw pc env).probes = [] ∧
    (net123_open policy gw gc pw pc env).gotWget = gw ∧
    (net123_open policy gw gc pw pc env).gotCurl = gc ∧
    (net123_open policy gw gc pw pc env).errors =
      ["invalid network backend specified"] := by
  simp [net123_open, h1, h2, h3]

/-- C5 witness: the invalid policy "ftp" at a concrete environment. -/
theorem invalid_policy_fails_early_witness :
    (net123_open "ftp" 0 1 true false ⟨true, true, true, 3, 4, 9⟩).result
        = none ∧
    (net123_open "ftp" 0 1 true false ⟨true, true, true, 3, 4, 9⟩).pipeCreated
        = false ∧
    (net123_open "ftp" 0 1 true false ⟨true, true, true, 3, 4, 9⟩).forkAttempted
        = false ∧
    (net123_open "ftp" 0 1 true false ⟨true, true, true, 3, 4, 9⟩).probes
        = [] ∧
    (net123_open "ftp" 0 1 true false ⟨true, true, true, 3, 4, 9⟩).gotWget
        = 0 ∧
    (net123_open "ftp" 0 1 true false ⟨true, true, true, 3, 4, 9⟩).gotCurl
        = 1 ∧
    (net123_open "ftp" 0 1 true false ⟨true, true, true, 3, 4, 9⟩).errors
        = ["invalid network backend specified"] := by
  exact invalid_policy_fails_early "ftp" 0 1 true false ⟨true, true, true, 3, 4, 9⟩
    (by decide) (by decide) (by decide)

/-- C9: an explicit backend policy ("wget" or "curl") runs no probes and
leaves both capability-cache entries unchanged. -/
theorem explicit_policy_no_probe (policy : String) (gw gc : Int)
    (pw pc : Bool) (env : OpenEnv)
    (h : policy = "wget" ∨ policy = "curl") :
    (net123_open policy gw gc pw pc env).probes = [] ∧
    (net123_open policy gw gc pw pc env).gotWget = gw ∧
    (net123_open policy gw gc pw pc env).gotCurl = gc := by
  rcases h with h | h <;> subst h <;>
    simp [net123_open, openLaunch_probes, openLaunch_gotWget,
      openLaunch_gotCurl]

/-- C9 witness: explicit policy "curl" at a concrete environment. -/
theorem explicit_policy_no_probe_witness :
    (net123_open "curl" (-1) 0 true true ⟨true, true, true, 3, 4, 9⟩).probes
        = [] ∧
    (net123_open "curl" (-1) 0 true true ⟨true, true, true, 3, 4, 9⟩).gotWget
        = -1 ∧
    (net123_open "curl" (-1) 0 true true ⟨true, true, true, 3, 4, 9⟩).gotCurl
        = 0 := by
  exact explicit_policy_no_probe "curl" (-1) 0 true true
    ⟨true, true, true, 3, 4, 9⟩ (Or.inr rfl)

/-- C6: `check_program` returns 1 iff the fork succeeded, `waitpid` matched,
and the child terminated normally with exit code 0; an image-replacement
failure (child exits 1) or a fork failure yields 0.  Under "auto", a
capability cache that is already not unknown (`≥ 0`) is consulted and no
probe runs; starting from unknown caches, one "auto" call leaves both caches
known (`≥ 0`), so the probe runs at most once per backend per process. -/
theorem probe_semantics_and_cache (forkOk waitOk : Bool) (child : ChildRun)
    (gw gc : Int) (pw pc : Bool) (env : OpenEnv)
    (hgw : 0 ≤ gw) (hgc : 0 ≤ gc) :
    (check_program forkOk waitOk child = 1 ↔
      (forkOk = true ∧ waitOk = true ∧
        (child_status child).1 = true ∧ (child_status child).2 = 0)) ∧
    check_program forkOk waitOk ChildRun.execFail = 0 ∧
    check_program false waitOk child = 0 ∧
    (net123_open "auto" gw gc pw pc env).probes = [] ∧
    0 ≤ (net123_open "auto" (-1) (-1) pw pc env).gotWget ∧
    0 ≤ (net123_open "auto" (-1) (-1) pw pc env).gotCurl := by
  refine ⟨?_, ?_, ?_, ?_, ?_, ?_⟩
  · cases forkOk <;> simp [check_program]
  · cases forkOk <;> cases waitOk <;> simp [check_program, child_status]
  · simp [check_program]
  · have h1 : ¬ gc < 0 := not_lt.mpr hgc
    have h2 : ¬ gw < 0 := not_lt.mpr hgw
    simp [net123_open, h1, h2, openLaunch_probes]
  · cases pw <;> cases pc <;>
      simp [net123_open, openLaunch_gotWget]
  · cases pw <;> cases pc <;>
      simp [net123_open, openLaunch_gotCurl]

/-- C6 witness: a normally-exiting probe child with exit code 0 at known
caches. -/
theorem probe_semantics_and_cache_witness :
    check_program true true (ChildRun.execOk true 0) = 1 ∧
    (net123_open "auto" 1 0 true true ⟨true, true, true, 3, 4, 9⟩).probes
      = [] := by
  have h := probe_semantics_and_cache true true (ChildRun.execOk true 0)
    1 0 true true ⟨true, true, true, 3, 4, 9⟩ (by decide) (by decide)
  exact ⟨h.1.mpr ⟨rfl, rfl, rfl, rfl⟩, h.2.2.2.1⟩

/-- C1: the code slip.  When `pipe()` succeeds (handing out descriptors 3 and
4) and `fork()` then fails, `net123_open` returns no handle but closes
neither pipe descriptor — the already-acquired pipe ends leak, contrary to
the claim that both are closed before returning.  (On pipe-creation failure
nothing was acquired, and the call indeed returns no handle.) -/
theorem fork_failure_leaks_pipe :
    (net123_open "wget" (-1) (-1) true true
        ⟨true, true, false, 3, 4, 99⟩).result = none ∧
    (net123_open "wget" (-1) (-1) true true
        ⟨true, true, false, 3, 4, 99⟩).pipeCreated = true ∧
    (net123_open "wget" (-1) (-1) true true
        ⟨true, true, false, 3, 4, 99⟩).closedFds = [] ∧
    (net123_open "wget" (-1) (-1) true true
        ⟨true, false, true, 3, 4, 99⟩).result = none ∧
    (net123_open "wget" (-1) (-1) true true
        ⟨true, false, true, 3, 4, 99⟩).pipeCreated = false := by
  exact ⟨rfl, rfl, rfl, rfl, rfl⟩

/-- C7: `net123_read` returns 0 immediately, performing no read, on a null
handle or on a null buffer with positive `bufsize`; otherwise it performs
exactly one blocking read on the handle's pipe read end, transparently
retried while interrupted by a signal. -/
theorem read_guard (nh : Option Handle) (bufNull : Bool) (bufsize : Nat)
    (steps : List ReadStep) (n : Int) :
    net123_read none bufNull bufsize steps = ⟨0, []⟩ ∧
    (bufsize ≠ 0 → net123_read nh true bufsize steps = ⟨0, []⟩) ∧
    (∀ h2 : Handle, ¬(bufsize ≠ 0 ∧ bufNull = true) →
      net123_read (some h2) bufNull bufsize steps
        = ⟨unintr_read steps, [h2.fd]⟩) ∧
    unintr_read (ReadStep.interrupted :: steps) = unintr_read steps ∧
    unintr_read (ReadStep.done n :: steps) = n := by
  refine ⟨rfl, ?_, ?_, rfl, rfl⟩
  · intro hbs
    cases nh with
    | none => rfl
    | some h2 => simp [net123_read, hbs]
  · intro h2 hg
    simp [net123_read, hg]

/-- C7 witness: a concrete read through a handle, with one interruption
retried. -/
theorem read_guard_witness :
    net123_read (some ⟨5, 42⟩) false 4
      [ReadStep.interrupted, ReadStep.done 3] = ⟨3, [5]⟩ := by
  exact (read_guard (some ⟨5, 42⟩) false 4
    [ReadStep.interrupted, ReadStep.done 3] 3).2.2.1 ⟨5, 42⟩ (by simp)

/-- C8: `net123_close` is a no-op on a null handle; with a recorded worker it
sends SIGKILL, blocks reaping the worker, and a reap failure only adds a
warning — the read descriptor (when still open) is closed and the handle
storage is freed last in every case. -/
theorem close_semantics (h : Handle) (reapOk : Bool) (hw : h.worker ≠ 0) :
    net123_close none reapOk = [] ∧
    net123_close (some h) reapOk =
      [CloseEff.kill h.worker "SIGKILL", CloseEff.reap h.worker reapOk]
        ++ (if reapOk then []
            else [CloseEff.warn "failed to wait for worker process"])
        ++ (if h.fd > -1 then [CloseEff.closeFd h.fd] else [])
        ++ [CloseEff.freeHandle] ∧
    (net123_close (some h) reapOk).getLast? = some CloseEff.freeHandle := by
  refine ⟨rfl, ?_, ?_⟩
  · simp [net123_close, hw]
  · exact getLast?_append_singleton _ _

/-- C8 witness: closing a handle with a live worker whose reap fails. -/
theorem close_semantics_witness :
    net123_close (some ⟨5, 42⟩) false =
      [CloseEff.kill 42 "SIGKILL", CloseEff.reap 42 false,
       CloseEff.warn "failed to wait for worker process",
       CloseEff.closeFd 5, CloseEff.freeHandle] := by
  exact ((close_semantics ⟨5, 42⟩ false (by decide)).2.1).trans (by rfl)

/-- C10 witness: a colon-free credential at concrete inputs makes the wget
vector identical to the no-credential vector. -/
theorem credential_no_colon_witness :
    (wget_argv (some "nocolon") false "http://x" none ⟨trueOracle, 0⟩).1 =
      (wget_argv none false "http://x" none ⟨trueOracle, 0⟩).1 := by
  exact (credential_no_colon "nocolon" "a:b" "http://x" false none 0 0
    (by decide)).1

end Net123
